import Mathlib

/-!
Verification of the body-language analysis backend.

The definitions below are a shallow embedding of the per-frame inference
pipeline and the session aggregation/scoring engine of the repository:

* `extract_landmarks` and `process_frame` embed
  `body_language_detector.py` (`_extract_landmarks`, `process_frame`);
* `analyze_frame`, `stop_session`, `score_session`, `generate_feedback`
  embed the handlers of `body_language_api.py`.

External collaborators (the MediaPipe estimator, the pickled classifier,
image transport) are modelled at the contract boundary: the estimator
result is a `HolisticResults` value, the classifier is an optional
function from a feature vector to an optional prediction (absence of the
function models a model that failed to load, a `none` result models a
runtime classification failure), and a decoded frame is a pair of the
annotated-image string and the per-frame prediction.  Python floats are
modelled as rationals, Python dicts as insertion-ordered key structures.
-/

/-- One MediaPipe landmark: normalized coordinates plus a visibility
score (face landmarks carry no visibility and the code stores 0). -/
structure LandmarkPoint where
  x : ℚ
  y : ℚ
  z : ℚ
  visibility : ℚ
deriving DecidableEq, Repr

/-- Result of the holistic estimator for one frame: optional pose
landmarks and optional face landmarks, as consumed by
`_extract_landmarks`. -/
structure HolisticResults where
  pose_landmarks : Option (List LandmarkPoint)
  face_landmarks : Option (List LandmarkPoint)
deriving DecidableEq, Repr

/-- A classifier output: the dict with keys class and confidence built
in `process_frame` (class is a Lean keyword, hence the field `cls`). -/
structure Prediction where
  cls : String
  confidence : ℚ
deriving DecidableEq, Repr

/-- Embedding of the private extraction method of
`BodyLanguageDetector`: it returns `none` when no pose landmarks are
present; otherwise it appends `[x, y, z, visibility]` per pose
landmark, then `[x, y, z, 0]` per face landmark (or 468 zero quadruples
when the face is absent), and flattens. -/
def extract_landmarks (res : HolisticResults) : Option (List ℚ) :=
  match res.pose_landmarks with
  | none => none
  | some poseLms =>
    let pose := poseLms.map (fun l => [l.x, l.y, l.z, l.visibility])
    let face :=
      match res.face_landmarks with
      | some faceLms => faceLms.map (fun l => [l.x, l.y, l.z, 0])
      | none => List.replicate 468 [0, 0, 0, 0]
    some (pose ++ face).flatten

/-- Embedding of `BodyLanguageDetector.process_frame`, restricted to the
prediction it returns: when pose landmarks are present the vector is built and
the classifier is invoked if a model was loaded (the classifier returns
`none` on a runtime failure, mirroring the `except` branch); otherwise
the prediction is `none`. -/
def process_frame (m : Option (List ℚ → Option Prediction))
    (res : HolisticResults) : Option Prediction :=
  match res.pose_landmarks with
  | some _ =>
    match m, extract_landmarks res with
    | some f, some pose => f pose
    | _, _ => none
  | none => none

/-- One value of the `gesture_percentages` mapping built in
`stop_session`. -/
structure GesturePercentage where
  gesture_name : String
  gesture_count : ℕ
  gesture_percentage : ℚ
deriving DecidableEq, Repr

/-- One entry of the process-wide `sessions` dict. -/
structure Session where
  start_time : ℚ
  frames_processed : ℕ
  detections : List (Option Prediction)
deriving DecidableEq, Repr

/-- The `sessions` dict, as an insertion-ordered association list with
unique keys (Python dict semantics). -/
abbrev Store := List (String × Session)

/-- Python dict key lookup over an association list. -/
def dictLookup {α : Type} : List (String × α) → String → Option α
  | [], _ => none
  | (k, v) :: rest, key => if k = key then some v else dictLookup rest key

/-- Python dict value update `d[key] = f d[key]`. -/
def updateStore : Store → String → (Session → Session) → Store
  | [], _, _ => []
  | (k, v) :: rest, key, f =>
    if k = key then (k, f v) :: updateStore rest key f
    else (k, v) :: updateStore rest key f

/-- Python `del d[key]`. -/
def removeKey (store : Store) (key : String) : Store :=
  store.filter (fun kv => kv.1 ≠ key)

/-- The session mutation performed by `analyze_frame` after the detector
ran (lines 77-79 of `body_language_api.py`): the prediction is appended
to `detections` unconditionally — also when it is `none` — and
`frames_processed` is incremented. -/
def analyze_update (s : Session) (pred : Option Prediction) : Session :=
  { s with detections := s.detections ++ [pred],
           frames_processed := s.frames_processed + 1 }

/-- The fresh session inserted by `start_session`. -/
def start_session_state (t : ℚ) : Session :=
  { start_time := t, frames_processed := 0, detections := [] }

/-- A sequence of successfully decoded `analyze_frame` calls applied to
one session. -/
def run_frames (s : Session) (preds : List (Option Prediction)) : Session :=
  preds.foldl analyze_update s

/-- Response body (plus HTTP status) of the `analyze_frame` handler. -/
structure AnalyzeResponse where
  status : ℕ
  processed_image : String
  prediction : Option Prediction
  error : Option String
deriving DecidableEq, Repr

/-- The `analyze_frame` handler, from the session lookup onward.
`decoded` stands for the outcome of base64-decoding the posted image and
running the detector on it: `none` models an undecodable image (the
`frame is None` branch), `some (img, pred)` carries the re-encoded
annotated image and the per-frame prediction. -/
def analyze_frame (sessions : Store) (session_id : String)
    (decoded : Option (String × Option Prediction)) :
    AnalyzeResponse × Store :=
  if (dictLookup sessions session_id).isSome then
    match decoded with
    | none =>
      ({ status := 400, processed_image := "", prediction := none,
         error := some "Invalid image data" }, sessions)
    | some (img, pred) =>
      ({ status := 200,
         processed_image := "data:image/jpeg;base64," ++ img,
         prediction := pred, error := none },
       updateStore sessions session_id (fun s => analyze_update s pred))
  else
    ({ status := 200, processed_image := "", prediction := none,
       error := some "Session not found or expired" }, sessions)

/-- The `gesture_counts` dict of `stop_session`: insertion-ordered keys
plus a tally function (Python dict with integer values). -/
structure CountDict where
  keys : List String
  val : String → ℕ

/-- The initial, empty `gesture_counts` dict. -/
def emptyCounts : CountDict := { keys := [], val := fun _ => 0 }

/-- One loop iteration of the tally: `if gesture not in counts:
counts[gesture] = 0` followed by `counts[gesture] += 1`. -/
def CountDict.bump (d : CountDict) (g : String) : CountDict :=
  let d0 : CountDict :=
    if g ∈ d.keys then d
    else { keys := d.keys ++ [g],
           val := fun x => if x = g then 0 else d.val x }
  { keys := d0.keys, val := fun x => if x = g then d0.val g + 1 else d0.val x }

/-- The tally loop over `detections`.  Subscripting a null detection
with the class key raises a TypeError in Python; the raise is modelled
by returning `none`. -/
def tally (d : CountDict) : List (Option Prediction) → Option CountDict
  | [] => some d
  | none :: _ => none
  | some p :: rest => tally (d.bump p.cls) rest

/-- Intro line of `generate_feedback`. -/
def feedback_intro_line : String := "Based on your body language analysis:\n\n"

/-- Positive Open Palm line. -/
def open_palm_positive_line : String :=
  "✓ Your open palm gestures convey openness and honesty.\n"

/-- Corrective Open Palm line. -/
def open_palm_corrective_line : String :=
  "✗ Try using more open palm gestures to appear more trustworthy.\n"

/-- Positive Thumbs Up line. -/
def thumbs_up_positive_line : String :=
  "✓ Your positive gestures like thumbs up help reinforce key points.\n"

/-- Positive Pointing line. -/
def pointing_positive_line : String :=
  "✓ Your pointing gestures effectively direct attention.\n"

/-- Corrective Crossed Arms line. -/
def crossed_arms_corrective_line : String :=
  "✗ Reduce crossed arms posture as it can appear defensive or closed off.\n"

/-- Positive posture line (the `else` of the Crossed Arms check). -/
def open_posture_positive_line : String :=
  "✓ You maintained an open posture throughout most of your presentation.\n"

/-- Corrective Victorious line. -/
def victorious_corrective_line : String :=
  "✗ Limit victory signs as they may appear unprofessional in formal settings.\n"

/-- Header of the general recommendations block. -/
def general_recommendations_header : String := "\nGeneral recommendations:\n"

/-- First fixed general-recommendation line. -/
def recommendation_posture_line : String :=
  "• Maintain balanced posture and avoid slouching\n"

/-- Second fixed general-recommendation line. -/
def recommendation_hands_line : String :=
  "• Use purposeful hand movements to emphasize points\n"

/-- Third fixed general-recommendation line. -/
def recommendation_eye_contact_line : String :=
  "• Keep steady eye contact with your audience\n"

/-- Fourth fixed general-recommendation line. -/
def recommendation_variety_line : String :=
  "• Vary your gestures to maintain audience engagement\n"

/-- The guard used by the feedback rules: the label is present in the
mapping and its gesture percentage exceeds the threshold. -/
def pctAbove (gps : List (String × GesturePercentage)) (name : String)
    (t : ℚ) : Bool :=
  match dictLookup gps name with
  | some v => decide (t < v.gesture_percentage)
  | none => false

/-- Embedding of `generate_feedback`, as the ordered list of the string
chunks that the Python function concatenates (the returned string is
their concatenation). -/
def generate_feedback (gps : List (String × GesturePercentage)) :
    List String :=
  [feedback_intro_line]
  ++ (if pctAbove gps "Open Palm" 20 then [open_palm_positive_line]
      else [open_palm_corrective_line])
  ++ (if pctAbove gps "Thumbs Up" 10 then [thumbs_up_positive_line] else [])
  ++ (if pctAbove gps "Pointing" 10 then [pointing_positive_line] else [])
  ++ (if pctAbove gps "Crossed Arms" 15 then [crossed_arms_corrective_line]
      else [open_posture_positive_line])
  ++ (if pctAbove gps "Victorious" 15 then [victorious_corrective_line]
      else [])
  ++ [general_recommendations_header,
      recommendation_posture_line,
      recommendation_hands_line,
      recommendation_eye_contact_line,
      recommendation_variety_line]

/-- Bucket lookup via the dict get method with the zero-count,
zero-percentage default entry. -/
def getPct (gps : List (String × GesturePercentage)) (name : String) :
    GesturePercentage :=
  (dictLookup gps name).getD
    { gesture_name := name, gesture_count := 0, gesture_percentage := 0 }

/-- The successful `stop_session` response body (everything the success
branch returns except the echoed session id). -/
structure SessionReport where
  duration : ℚ
  frames_processed : ℕ
  gesture_percentages : List (String × GesturePercentage)
  allowed_gestures : List (String × GesturePercentage)
  disallowed_gestures : List (String × GesturePercentage)
  feedback : List String
  overall_score : ℚ
deriving DecidableEq, Repr

/-- The `gesture_percentages` dict built from `gesture_counts.items()`
when `total_frames > 0`. -/
def mkGps (d : CountDict) (total_frames : ℕ) :
    List (String × GesturePercentage) :=
  d.keys.map (fun g =>
    (g, { gesture_name := g, gesture_count := d.val g,
          gesture_percentage := (d.val g : ℚ) / (total_frames : ℚ) * 100 }))

/-- The report assembled by `stop_session` from a session and its
`gesture_percentages`: fixed allowed/disallowed buckets via `.get` with
zero defaults, feedback, and the clamped overall score. -/
def buildReport (s : Session) (end_time : ℚ)
    (gps : List (String × GesturePercentage)) : SessionReport :=
  let allowed := [("Open Palm", getPct gps "Open Palm"),
                  ("Thumbs Up", getPct gps "Thumbs Up"),
                  ("Pointing", getPct gps "Pointing")]
  let disallowed := [("Crossed Arms", getPct gps "Crossed Arms"),
                     ("Victorious", getPct gps "Victorious")]
  let ap := (allowed.map (fun kv => kv.2.gesture_percentage)).sum
  let dp := (disallowed.map (fun kv => kv.2.gesture_percentage)).sum
  { duration := end_time - s.start_time
    frames_processed := s.frames_processed
    gesture_percentages := gps
    allowed_gestures := allowed
    disallowed_gestures := disallowed
    feedback := generate_feedback gps
    overall_score :=
      if 0 < s.frames_processed then
        min 100 (max 0 (50 + (ap - dp) / 2))
      else 0 }

/-- The body of `stop_session` for a found session: tally, percentages
(empty mapping when `frames_processed = 0`), buckets, feedback, score.
`none` models the uncaught `TypeError` raised while tallying a null
detection. -/
def score_session (s : Session) (end_time : ℚ) : Option SessionReport :=
  if 0 < s.frames_processed then
    match tally emptyCounts s.detections with
    | none => none
    | some d => some (buildReport s end_time (mkGps d s.frames_processed))
  else some (buildReport s end_time [])

/-- Response body (plus HTTP status) of the `stop_session` handler.
Fields absent from an error body are modelled as zero/empty. -/
structure StopResponse where
  status : ℕ
  error : Option String
  duration : ℚ
  frames_processed : ℕ
  gesture_percentages : List (String × GesturePercentage)
  allowed_gestures : List (String × GesturePercentage)
  disallowed_gestures : List (String × GesturePercentage)
  feedback : List String
  overall_score : ℚ
deriving DecidableEq, Repr

/-- The `stop_session` handler from the session lookup onward: the
unknown-id branch answers 200 with zeroed metrics and an error string;
an internal fault while scoring answers 500 and leaves the store
untouched (the `del` is never reached); otherwise the report is
returned and the session is removed. -/
def stop_session (sessions : Store) (session_id : String)
    (end_time : ℚ) : StopResponse × Store :=
  match dictLookup sessions session_id with
  | none =>
    ({ status := 200,
       error := some ("Session ID not found: " ++ session_id),
       duration := 0, frames_processed := 0, gesture_percentages := [],
       allowed_gestures := [], disallowed_gestures := [],
       feedback := ["No session data available"], overall_score := 0 },
     sessions)
  | some s =>
    match score_session s end_time with
    | none =>
      ({ status := 500,
         error := some "TypeError while tallying a null detection",
         duration := 0, frames_processed := 0, gesture_percentages := [],
         allowed_gestures := [], disallowed_gestures := [],
         feedback := [], overall_score := 0 },
       sessions)
    | some r =>
      ({ status := 200, error := none, duration := r.duration,
         frames_processed := r.frames_processed,
         gesture_percentages := r.gesture_percentages,
         allowed_gestures := r.allowed_gestures,
         disallowed_gestures := r.disallowed_gestures,
         feedback := r.feedback, overall_score := r.overall_score },
       removeKey sessions session_id)

/-- Number of non-null detections carrying class label `g`. -/
def countLabel (dets : List (Option Prediction)) (g : String) : ℕ :=
  dets.countP (fun d =>
    match d with
    | some p => decide (p.cls = g)
    | none => false)

/-- Sum of all tallies of a `CountDict`. -/
def sumVals (d : CountDict) : ℕ := (d.keys.map d.val).sum

/-- Well-formedness of the tally dict: its keys are unique and every
absent key tallies to zero. -/
def CountDict.Inv (d : CountDict) : Prop :=
  d.keys.Nodup ∧ ∀ x, x ∉ d.keys → d.val x = 0

/-- Sum of the three allowed-bucket percentages. -/
def allowedSum (gps : List (String × GesturePercentage)) : ℚ :=
  (getPct gps "Open Palm").gesture_percentage
    + (getPct gps "Thumbs Up").gesture_percentage
    + (getPct gps "Pointing").gesture_percentage

/-- Sum of the two disallowed-bucket percentages. -/
def disallowedSum (gps : List (String × GesturePercentage)) : ℚ :=
  (getPct gps "Crossed Arms").gesture_percentage
    + (getPct gps "Victorious").gesture_percentage

/-- A session of two frames both classified Open Palm. -/
def two_open_palm_session : Session :=
  { start_time := 0, frames_processed := 2,
    detections := [some { cls := "Open Palm", confidence := 9 / 10 },
                   some { cls := "Open Palm", confidence := 9 / 10 }] }

/-- A session holding exactly one null detection. -/
def null_detection_session : Session :=
  { start_time := 0, frames_processed := 1, detections := [none] }

lemma length_join_of_forall_length_eq (f : LandmarkPoint → List ℚ)
    (hlen : ∀ p, (f p).length = 4) (l : List LandmarkPoint) :
    ((l.map f).flatten).length = 4 * l.length := by
  induction l with
  | nil => simp
  | cons a t ih =>
    simp only [List.map_cons, List.flatten_cons, List.length_append, ih,
      List.length_cons, hlen]
    omega

lemma join_replicate_quad (n : ℕ) :
    (List.replicate n ([0, 0, 0, 0] : List ℚ)).flatten
      = List.replicate (4 * n) 0 := by
  induction n with
  | zero => simp
  | succ k ih =>
    rw [List.replicate_succ, List.flatten_cons, ih]
    have h4 : 4 * (k + 1) = 4 + 4 * k := by omega
    rw [h4, List.replicate_add]
    rfl

lemma emptyCounts_inv : emptyCounts.Inv :=
  ⟨List.nodup_nil, fun _ _ => rfl⟩

lemma CountDict.bump_val (d : CountDict) (hinv : d.Inv) (c g : String) :
    (d.bump c).val g = d.val g + if g = c then 1 else 0 := by
  by_cases hc : c ∈ d.keys <;> by_cases hg : g = c
  · subst hg; simp [CountDict.bump, hc]
  · simp [CountDict.bump, hc, hg]
  · subst hg; simp [CountDict.bump, hc, hinv.2 g hc]
  · simp [CountDict.bump, hc, hg]

lemma CountDict.bump_keys (d : CountDict) (c : String) :
    (d.bump c).keys = if c ∈ d.keys then d.keys else d.keys ++ [c] := by
  by_cases hc : c ∈ d.keys <;> simp [CountDict.bump, hc]

lemma CountDict.bump_inv (d : CountDict) (hinv : d.Inv) (c : String) :
    (d.bump c).Inv := by
  obtain ⟨hnd, hz⟩ := hinv
  by_cases hc : c ∈ d.keys
  · refine ⟨by simpa [CountDict.bump_keys, hc] using hnd, ?_⟩
    intro x hx
    rw [CountDict.bump_keys, if_pos hc] at hx
    have hxc : x ≠ c := fun h => hx (h ▸ hc)
    simp [CountDict.bump, hc, hxc, hz x hx]
  · refine ⟨?_, ?_⟩
    · rw [CountDict.bump_keys, if_neg hc]
      simp [List.nodup_append, hnd, hc]
    · intro x hx
      rw [CountDict.bump_keys, if_neg hc] at hx
      simp only [List.mem_append, List.mem_singleton, not_or] at hx
      simp [CountDict.bump, hc, hx.2, hz x hx.1]

lemma sum_map_update (v : String → ℕ) (c : String) (l : List String)
    (hnd : l.Nodup) (hmem : c ∈ l) :
    (l.map (fun x => if x = c then v c + 1 else v x)).sum
      = (l.map v).sum + 1 := by
  induction l with
  | nil => cases hmem
  | cons a t ih =>
    rcases List.nodup_cons.mp hnd with ⟨ha, hndt⟩
    by_cases hac : a = c
    · subst hac
      have ht : ∀ x ∈ t, (if x = a then v a + 1 else v x) = v x := by
        intro x hx
        have hxa : x ≠ a := fun h => ha (h ▸ hx)
        simp [hxa]
      simp [List.map_congr_left ht]
      omega
    · have hct : c ∈ t := by
        rcases List.mem_cons.mp hmem with h | h
        · exact absurd h.symm hac
        · exact h
      simp [hac, ih hndt hct]
      omega

lemma CountDict.bump_sum (d : CountDict) (hinv : d.Inv) (c : String) :
    sumVals (d.bump c) = sumVals d + 1 := by
  obtain ⟨hnd, hz⟩ := hinv
  by_cases hc : c ∈ d.keys
  · have hkeys : (d.bump c).keys = d.keys := by
      rw [CountDict.bump_keys, if_pos hc]
    have hval : ∀ x ∈ d.keys,
        (d.bump c).val x = if x = c then d.val c + 1 else d.val x := by
      intro x _
      simp [CountDict.bump, hc]
    calc sumVals (d.bump c)
        = (d.keys.map (fun x => if x = c then d.val c + 1 else d.val x)).sum := by
          rw [sumVals, hkeys, List.map_congr_left hval]
      _ = (d.keys.map d.val).sum + 1 := sum_map_update d.val c d.keys hnd hc
      _ = sumVals d + 1 := rfl
  · have hkeys : (d.bump c).keys = d.keys ++ [c] := by
      rw [CountDict.bump_keys, if_neg hc]
    have hvc : (d.bump c).val c = 1 := by
      simp [CountDict.bump, hc]
    have hmap : d.keys.map (d.bump c).val = d.keys.map d.val := by
      apply List.map_congr_left
      intro x hx
      have hxc : x ≠ c := fun h => hc (h ▸ hx)
      simp [CountDict.bump, hc, hxc]
    calc sumVals (d.bump c)
        = (d.keys.map (d.bump c).val).sum + (d.bump c).val c := by
          simp [sumVals, hkeys]
      _ = sumVals d + 1 := by rw [hmap, hvc, sumVals]

lemma tally_spec :
    ∀ (dets : List (Option Prediction)) (d e : CountDict),
      d.Inv → tally d dets = some e →
      e.Inv ∧ (∀ g, e.val g = d.val g + countLabel dets g) ∧
        sumVals e = sumVals d + dets.length := by
  intro dets
  induction dets with
  | nil =>
    intro d e hinv h
    simp only [tally, Option.some.injEq] at h
    subst h
    refine ⟨hinv, fun g => ?_, by simp⟩
    simp [countLabel]
  | cons o rest ih =>
    intro d e hinv h
    cases o with
    | none => simp [tally] at h
    | some p =>
      simp only [tally] at h
      have hinv2 := d.bump_inv hinv p.cls
      obtain ⟨hei, hval, hsum⟩ := ih (d.bump p.cls) e hinv2 h
      refine ⟨hei, fun g => ?_, ?_⟩
      · have hcnt : countLabel (some p :: rest) g
            = countLabel rest g + if p.cls = g then 1 else 0 := by
          simp [countLabel, List.countP_cons]
        rw [hval g, d.bump_val hinv p.cls g, hcnt]
        rcases eq_or_ne p.cls g with hpg | hpg
        · simp [hpg]
          omega
        · simp [hpg, Ne.symm hpg]
      · rw [hsum, d.bump_sum hinv p.cls, List.length_cons]
        omega

lemma tally_total :
    ∀ (dets : List (Option Prediction)) (d : CountDict),
      (∀ x ∈ dets, x ≠ none) → ∃ e, tally d dets = some e := by
  intro dets
  induction dets with
  | nil => exact fun d _ => ⟨d, rfl⟩
  | cons o rest ih =>
    intro d h
    cases o with
    | none => exact absurd rfl (h none (List.mem_cons_self _ _))
    | some p =>
      obtain ⟨e, he⟩ :=
        ih (d.bump p.cls) (fun x hx => h x (List.mem_cons_of_mem _ hx))
      exact ⟨e, by simpa [tally] using he⟩

lemma tally_of_mem_none :
    ∀ (dets : List (Option Prediction)) (d : CountDict),
      none ∈ dets → tally d dets = none := by
  intro dets
  induction dets with
  | nil => intro d h; cases h
  | cons o rest ih =>
    intro d h
    cases o with
    | none => rfl
    | some p =>
      have hr : (none : Option Prediction) ∈ rest := by
        rcases List.mem_cons.mp h with h1 | h1
        · simp at h1
        · exact h1
      simpa [tally] using ih (d.bump p.cls) hr

lemma dictLookup_updateStore (store : Store) (key : String)
    (f : Session → Session) :
    dictLookup (updateStore store key f) key
      = (dictLookup store key).map f := by
  induction store with
  | nil => rfl
  | cons kv rest ih =>
    obtain ⟨k, v⟩ := kv
    by_cases h : k = key
    · simp [updateStore, dictLookup, h]
    · simpa [updateStore, dictLookup, h] using ih

lemma updateStore_of_lookup_eq_none (store : Store) (key : String)
    (f : Session → Session) (h : dictLookup store key = none) :
    updateStore store key f = store := by
  induction store with
  | nil => rfl
  | cons kv rest ih =>
    obtain ⟨k, v⟩ := kv
    by_cases hk : k = key
    · simp [dictLookup, hk] at h
    · simp only [dictLookup, if_neg hk] at h
      simp [updateStore, hk, ih h]

lemma buildReport_overall_score (s : Session) (t : ℚ)
    (gps : List (String × GesturePercentage)) :
    (buildReport s t gps).overall_score =
      if 0 < s.frames_processed then
        min 100 (max 0 (50 + (allowedSum gps - disallowedSum gps) / 2))
      else 0 := by
  by_cases h : 0 < s.frames_processed
  · simp [buildReport, allowedSum, disallowedSum, h]
    ring_nf
  · simp [buildReport, h]

lemma run_frames_stats (preds : List (Option Prediction)) :
    ∀ s : Session,
      (run_frames s preds).frames_processed
          = s.frames_processed + preds.length
        ∧ (run_frames s preds).detections = s.detections ++ preds := by
  induction preds with
  | nil => intro s; simp [run_frames]
  | cons p rest ih =>
    intro s
    obtain ⟨h1, h2⟩ := ih (analyze_update s p)
    refine ⟨?_, ?_⟩
    · show (run_frames (analyze_update s p) rest).frames_processed = _
      rw [h1]
      simp only [analyze_update, List.length_cons]
      omega
    · show (run_frames (analyze_update s p) rest).detections = _
      rw [h2]
      simp [analyze_update]

/-- C2: for every landmark set with pose present (33 pose landmarks, and
468 face landmarks whenever the face is present), the feature vector is
built; it has length exactly 2004, and when the face is absent the face
slice — everything after the 132 pose values — is exactly 1872 zeros. -/
theorem extract_landmarks_vector_spec (res : HolisticResults)
    (pl : List LandmarkPoint) (hp : res.pose_landmarks = some pl)
    (h33 : pl.length = 33)
    (hf : ∀ fl, res.face_landmarks = some fl → fl.length = 468) :
    ∃ v, extract_landmarks res = some v ∧ v.length = 2004 ∧
      (res.face_landmarks = none →
        v.drop 132 = List.replicate 1872 (0 : ℚ)) := by
  have hq : ∀ l : LandmarkPoint,
      ([l.x, l.y, l.z, l.visibility] : List ℚ).length = 4 := fun _ => rfl
  cases hface : res.face_landmarks with
  | none =>
    refine ⟨((pl.map fun l => [l.x, l.y, l.z, l.visibility])
        ++ List.replicate 468 ([0, 0, 0, 0] : List ℚ)).flatten, ?_, ?_, ?_⟩
    · simp only [extract_landmarks, hp, hface]
    · rw [List.flatten_append, List.length_append,
        length_join_of_forall_length_eq _ hq, h33, join_replicate_quad,
        List.length_replicate]
    · intro _
      rw [List.flatten_append, join_replicate_quad]
      have hlen :
          ((pl.map fun l => [l.x, l.y, l.z, l.visibility]).flatten).length
            = 132 := by
        rw [length_join_of_forall_length_eq _ hq, h33]
      calc ((pl.map fun l => [l.x, l.y, l.z, l.visibility]).flatten
              ++ List.replicate (4 * 468) (0 : ℚ)).drop 132
          = List.replicate (4 * 468) (0 : ℚ) := by
            rw [← hlen, List.drop_left]
        _ = List.replicate 1872 (0 : ℚ) := by norm_num
  | some fl =>
    have h468 := hf fl hface
    have hq2 : ∀ l : LandmarkPoint,
        ([l.x, l.y, l.z, 0] : List ℚ).length = 4 := fun _ => rfl
    refine ⟨((pl.map fun l => [l.x, l.y, l.z, l.visibility])
        ++ fl.map fun l => [l.x, l.y, l.z, 0]).flatten, ?_, ?_, ?_⟩
    · simp only [extract_landmarks, hp, hface]
    · rw [List.flatten_append, List.length_append,
        length_join_of_forall_length_eq _ hq, h33,
        length_join_of_forall_length_eq _ hq2, h468]
    · intro h
      exact Option.noConfusion h

/-- Witness for C2 at a concrete landmark set: 33 pose landmarks, no
face landmarks. -/
theorem extract_landmarks_vector_spec_witness :
    ∃ v, extract_landmarks
        { pose_landmarks :=
            some (List.replicate 33 ⟨0, 0, 0, 0⟩),
          face_landmarks := none } = some v ∧ v.length = 2004 ∧
      (({ pose_landmarks :=
            some (List.replicate 33 (⟨0, 0, 0, 0⟩ : LandmarkPoint)),
          face_landmarks := none } : HolisticResults).face_landmarks = none →
        v.drop 132 = List.replicate 1872 (0 : ℚ)) :=
  extract_landmarks_vector_spec _ _ rfl (by rw [List.length_replicate])
    (fun fl h => Option.noConfusion h)

/-- C6: the feature vector builder returns `none` exactly when pose
landmarks are absent; when they are present a vector is always built;
and with no pose the per-frame prediction is `none` whatever classifier
is installed. -/
theorem extract_landmarks_pose_gate (res : HolisticResults)
    (m : Option (List ℚ → Option Prediction)) :
    (extract_landmarks res = none ↔ res.pose_landmarks = none)
    ∧ (∀ pl, res.pose_landmarks = some pl → (extract_landmarks res).isSome)
    ∧ (res.pose_landmarks = none → process_frame m res = none) := by
  cases hp : res.pose_landmarks with
  | none =>
    have he : extract_landmarks res = none := by
      simp only [extract_landmarks, hp]
    have hpf : process_frame m res = none := by
      simp only [process_frame, hp]
    exact ⟨⟨fun _ => rfl, fun _ => he⟩,
      fun pl hpl => Option.noConfusion hpl, fun _ => hpf⟩
  | some pl =>
    cases hface : res.face_landmarks with
    | none =>
      have he : extract_landmarks res
          = some ((pl.map fun l => [l.x, l.y, l.z, l.visibility])
              ++ List.replicate 468 ([0, 0, 0, 0] : List ℚ)).flatten := by
        simp only [extract_landmarks, hp, hface]
      refine ⟨?_, fun _ _ => by rw [he]; rfl, fun h => Option.noConfusion h⟩
      rw [he]
      exact iff_of_false (fun h => Option.noConfusion h)
        (fun h => Option.noConfusion h)
    | some fl =>
      have he : extract_landmarks res
          = some ((pl.map fun l => [l.x, l.y, l.z, l.visibility])
              ++ fl.map fun l => [l.x, l.y, l.z, 0]).flatten := by
        simp only [extract_landmarks, hp, hface]
      refine ⟨?_, fun _ _ => by rw [he]; rfl, fun h => Option.noConfusion h⟩
      rw [he]
      exact iff_of_false (fun h => Option.noConfusion h)
        (fun h => Option.noConfusion h)

/-- Witness for C6 at a concrete empty landmark set and absent model. -/
theorem extract_landmarks_pose_gate_witness :
    (extract_landmarks { pose_landmarks := none, face_landmarks := none }
        = none
      ↔ ({ pose_landmarks := none, face_landmarks := none }
          : HolisticResults).pose_landmarks = none)
    ∧ (∀ pl, ({ pose_landmarks := none, face_landmarks := none }
          : HolisticResults).pose_landmarks = some pl →
        (extract_landmarks
          { pose_landmarks := none, face_landmarks := none }).isSome)
    ∧ (({ pose_landmarks := none, face_landmarks := none }
          : HolisticResults).pose_landmarks = none →
        process_frame none
          { pose_landmarks := none, face_landmarks := none } = none) :=
  extract_landmarks_pose_gate
    { pose_landmarks := none, face_landmarks := none } none

/-- C9: every successfully decoded `analyze_frame` call appends exactly
one entry — possibly null — to `detections` and increments
`frames_processed` once, so after any sequence of such calls on a fresh
session the counter equals the length of `detections`. -/
theorem frames_processed_eq_detections_length (t : ℚ)
    (preds : List (Option Prediction)) (s : Session)
    (p : Option Prediction) :
    ((analyze_update s p).frames_processed = s.frames_processed + 1
      ∧ (analyze_update s p).detections = s.detections ++ [p])
    ∧ (run_frames (start_session_state t) preds).frames_processed
        = (run_frames (start_session_state t) preds).detections.length := by
  refine ⟨⟨rfl, rfl⟩, ?_⟩
  obtain ⟨h1, h2⟩ := run_frames_stats preds (start_session_state t)
  rw [h1, h2]
  simp [start_session_state]

/-- Witness for C9 on a concrete two-frame run (one null detection, one
successful prediction). -/
theorem frames_processed_eq_detections_length_witness :
    (run_frames (start_session_state 0)
        [none, some { cls := "Open Palm", confidence := 9 / 10 }]
      ).frames_processed
      = (run_frames (start_session_state 0)
          [none, some { cls := "Open Palm", confidence := 9 / 10 }]
        ).detections.length :=
  (frames_processed_eq_detections_length 0
    [none, some { cls := "Open Palm", confidence := 9 / 10 }]
    (start_session_state 0) none).2

/-- C1 fails on the code: `analyze_frame` appends the prediction to
`detections` unconditionally, so a frame with no detected person appends
a null entry while incrementing `frames_processed`, and the session can
then no longer be stopped — `stop_session` answers with a hard 500
status.  This theorem evaluates the handlers at that failing input. -/
theorem analyze_frame_appends_null_prediction :
    (dictLookup (analyze_frame [("1", start_session_state 0)] "1"
        (some ("", none))).2 "1"
      = some { start_time := 0, frames_processed := 1,
               detections := [none] })
    ∧ (stop_session (analyze_frame [("1", start_session_state 0)] "1"
        (some ("", none))).2 "1" 7).1.status = 500 := by
  constructor
  · rfl
  · rfl

/-- C8: for a session id absent from the store, `analyze_frame` answers
status 200 with an empty processed image, a null prediction and a
populated error string, and `stop_session` answers status 200 with all
numeric and mapping fields zero or empty plus a populated error string;
neither touches the store. -/
theorem unknown_session_responses (store : Store) (sid : String)
    (decoded : Option (String × Option Prediction)) (t : ℚ)
    (h : dictLookup store sid = none) :
    analyze_frame store sid decoded
      = ({ status := 200, processed_image := "", prediction := none,
           error := some "Session not found or expired" }, store)
    ∧ stop_session store sid t
      = ({ status := 200,
           error := some ("Session ID not found: " ++ sid),
           duration := 0, frames_processed := 0,
           gesture_percentages := [], allowed_gestures := [],
           disallowed_gestures := [],
           feedback := ["No session data available"],
           overall_score := 0 }, store) := by
  constructor
  · simp [analyze_frame, h]
  · simp [stop_session, h]

/-- Witness for C8 at the empty store. -/
theorem unknown_session_responses_witness :
    dictLookup ([] : Store) "missing" = none
      ∧ (analyze_frame [] "missing" none).1.error
          = some "Session not found or expired"
      ∧ (stop_session [] "missing" 0).1.status = 200
      ∧ (stop_session [] "missing" 0).1.frames_processed = 0
      ∧ (stop_session [] "missing" 0).1.overall_score = 0 := by
  have h := unknown_session_responses [] "missing" none 0 rfl
  refine ⟨rfl, ?_, ?_, ?_, ?_⟩
  · rw [h.1]
  · rw [h.2]
  · rw [h.2]
  · rw [h.2]

/-- C5: the generated feedback contains the positive Open Palm line
exactly when Open Palm exceeds 20% and otherwise the corrective line;
the Thumbs Up and Pointing positive lines exactly above 10% (no
negative counterparts); the corrective Crossed Arms line exactly above
15% and otherwise the positive posture line; the corrective Victorious
line exactly above 15% (no positive counterpart); and always ends with
the general-recommendation block. -/
theorem generate_feedback_lines_spec
    (gps : List (String × GesturePercentage)) :
    (open_palm_positive_line ∈ generate_feedback gps
      ↔ pctAbove gps "Open Palm" 20 = true)
    ∧ (open_palm_corrective_line ∈ generate_feedback gps
      ↔ ¬(pctAbove gps "Open Palm" 20 = true))
    ∧ (thumbs_up_positive_line ∈ generate_feedback gps
      ↔ pctAbove gps "Thumbs Up" 10 = true)
    ∧ (pointing_positive_line ∈ generate_feedback gps
      ↔ pctAbove gps "Pointing" 10 = true)
    ∧ (crossed_arms_corrective_line ∈ generate_feedback gps
      ↔ pctAbove gps "Crossed Arms" 15 = true)
    ∧ (open_posture_positive_line ∈ generate_feedback gps
      ↔ ¬(pctAbove gps "Crossed Arms" 15 = true))
    ∧ (victorious_corrective_line ∈ generate_feedback gps
      ↔ pctAbove gps "Victorious" 15 = true)
    ∧ [general_recommendations_header, recommendation_posture_line,
       recommendation_hands_line, recommendation_eye_contact_line,
       recommendation_variety_line] <:+ generate_feedback gps := by
  have hsuf : [general_recommendations_header, recommendation_posture_line,
      recommendation_hands_line, recommendation_eye_contact_line,
      recommendation_variety_line] <:+ generate_feedback gps :=
    List.suffix_append _ _
  refine ⟨?_, ?_, ?_, ?_, ?_, ?_, ?_, hsuf⟩ <;>
  · cases h1 : pctAbove gps "Open Palm" 20 <;>
    cases h2 : pctAbove gps "Thumbs Up" 10 <;>
    cases h3 : pctAbove gps "Pointing" 10 <;>
    cases h4 : pctAbove gps "Crossed Arms" 15 <;>
    cases h5 : pctAbove gps "Victorious" 15 <;>
    simp only [generate_feedback, h1, h2, h3, h4, h5] <;>
    decide

lemma buildReport_gesture_percentages (s : Session) (t : ℚ)
    (gps : List (String × GesturePercentage)) :
    (buildReport s t gps).gesture_percentages = gps := rfl

lemma score_session_of_pos (s : Session) (t : ℚ)
    (h : 0 < s.frames_processed) (d : CountDict)
    (hd : tally emptyCounts s.detections = some d) :
    score_session s t
      = some (buildReport s t (mkGps d s.frames_processed)) := by
  rw [score_session, if_pos h, hd]

lemma score_session_of_zero (s : Session) (t : ℚ)
    (h : ¬0 < s.frames_processed) :
    score_session s t = some (buildReport s t []) := by
  rw [score_session, if_neg h]

lemma score_session_inv_pos (s : Session) (t : ℚ) (r : SessionReport)
    (h0 : 0 < s.frames_processed) (h : score_session s t = some r) :
    ∃ d, tally emptyCounts s.detections = some d
      ∧ r = buildReport s t (mkGps d s.frames_processed) := by
  rw [score_session, if_pos h0] at h
  cases hd : tally emptyCounts s.detections with
  | none => rw [hd] at h; cases h
  | some d => rw [hd] at h; exact ⟨d, rfl, (Option.some.inj h).symm⟩

lemma sum_map_div (l : List String) (v : String → ℕ) (N : ℚ) :
    (l.map (fun g => (v g : ℚ) / N * 100)).sum
      = ((l.map v).sum : ℚ) / N * 100 := by
  induction l with
  | nil => simp
  | cons a tl ih =>
    simp only [List.map_cons, List.sum_cons, ih]
    push_cast
    ring

/-- C3: for every finalized session with `frames_processed > 0` the
overall score is `min 100 (max 0 (50 + (allowed sum − disallowed sum)
/ 2))`, for `frames_processed = 0` it is `0`; in particular an
allowed-percentage sum of 100 with disallowed sum 0 yields score 100,
and allowed 0 with disallowed 100 yields score 0. -/
theorem overall_score_spec (s : Session) (t : ℚ) (r : SessionReport)
    (h : score_session s t = some r) :
    (0 < s.frames_processed →
      r.overall_score = min 100 (max 0 (50 +
        (allowedSum r.gesture_percentages
          - disallowedSum r.gesture_percentages) / 2)))
    ∧ (s.frames_processed = 0 → r.overall_score = 0)
    ∧ (0 < s.frames_processed → allowedSum r.gesture_percentages = 100 →
        disallowedSum r.gesture_percentages = 0 → r.overall_score = 100)
    ∧ (0 < s.frames_processed → allowedSum r.gesture_percentages = 0 →
        disallowedSum r.gesture_percentages = 100 →
        r.overall_score = 0) := by
  have hmain : 0 < s.frames_processed →
      r.overall_score = min 100 (max 0 (50 +
        (allowedSum r.gesture_percentages
          - disallowedSum r.gesture_percentages) / 2)) := by
    intro h0
    obtain ⟨d, hd, hr⟩ := score_session_inv_pos s t r h0 h
    rw [hr, buildReport_gesture_percentages, buildReport_overall_score,
      if_pos h0]
  refine ⟨hmain, ?_, ?_, ?_⟩
  · intro h0
    have hnp : ¬0 < s.frames_processed := by omega
    rw [score_session_of_zero s t hnp] at h
    rw [← Option.some.inj h, buildReport_overall_score, if_neg hnp]
  · intro h0 hA hD
    rw [hmain h0, hA, hD]
    norm_num [max_def, min_def]
  · intro h0 hA hD
    rw [hmain h0, hA, hD]
    norm_num [max_def, min_def]

/-- Witness for C3 at the empty session. -/
theorem overall_score_spec_witness :
    score_session (start_session_state 0) 3
        = some (buildReport (start_session_state 0) 3 [])
      ∧ (buildReport (start_session_state 0) 3 []).overall_score = 0 :=
  ⟨rfl, (overall_score_spec (start_session_state 0) 3
      (buildReport (start_session_state 0) 3 []) rfl).2.1 rfl⟩

/-- C4: for every finalized session whose detections are all non-null,
scoring succeeds, each observed label tallies `count / frames_processed
* 100` (divided by `frames_processed`, not by the number of
detections), and `frames_processed = 0` yields an empty mapping, so the
division is never performed with a zero divisor. -/
theorem gesture_percentages_spec (s : Session) (t : ℚ)
    (hnn : ∀ o ∈ s.detections, o ≠ none) :
    ∃ r, score_session s t = some r
      ∧ (∀ e ∈ r.gesture_percentages,
          e.2.gesture_count = countLabel s.detections e.1
            ∧ e.2.gesture_percentage
              = (countLabel s.detections e.1 : ℚ)
                  / (s.frames_processed : ℚ) * 100)
      ∧ (s.frames_processed = 0 → r.gesture_percentages = []) := by
  by_cases h0 : 0 < s.frames_processed
  · obtain ⟨d, hd⟩ := tally_total s.detections emptyCounts hnn
    obtain ⟨hdinv, hval, hsum⟩ :=
      tally_spec s.detections emptyCounts d emptyCounts_inv hd
    refine ⟨buildReport s t (mkGps d s.frames_processed),
      score_session_of_pos s t h0 d hd, ?_, fun hz => absurd hz (by omega)⟩
    intro e he
    rw [buildReport_gesture_percentages] at he
    simp only [mkGps, List.mem_map] at he
    obtain ⟨g, hg, rfl⟩ := he
    have hvg : d.val g = countLabel s.detections g := by
      rw [hval g]
      exact Nat.zero_add _
    exact ⟨hvg, by rw [← hvg]⟩
  · refine ⟨buildReport s t [], score_session_of_zero s t h0, ?_, fun _ => ?_⟩
    · intro e he
      rw [buildReport_gesture_percentages] at he
      cases he
    · rw [buildReport_gesture_percentages]

/-- Witness for C4 at a concrete all-successful session. -/
theorem gesture_percentages_spec_witness :
    ∃ r, score_session two_open_palm_session 3 = some r
      ∧ (∀ e ∈ r.gesture_percentages,
          e.2.gesture_count = countLabel two_open_palm_session.detections e.1
            ∧ e.2.gesture_percentage
              = (countLabel two_open_palm_session.detections e.1 : ℚ)
                  / (two_open_palm_session.frames_processed : ℚ) * 100)
      ∧ (two_open_palm_session.frames_processed = 0 →
          r.gesture_percentages = []) :=
  gesture_percentages_spec two_open_palm_session 3 (by decide)

/-- C7: for every finalized session with positive `frames_processed` at
least as large as the number of detections, the gesture percentages sum
to at most 100. -/
theorem gesture_percentage_sum_le_100 (s : Session) (t : ℚ)
    (r : SessionReport) (hN : 0 < s.frames_processed)
    (hlen : s.detections.length ≤ s.frames_processed)
    (h : score_session s t = some r) :
    (r.gesture_percentages.map (fun e => e.2.gesture_percentage)).sum
      ≤ 100 := by
  obtain ⟨d, hd, hr⟩ := score_session_inv_pos s t r hN h
  obtain ⟨hdinv, hval, hsum⟩ :=
    tally_spec s.detections emptyCounts d emptyCounts_inv hd
  rw [hr, buildReport_gesture_percentages]
  have hmm : ((mkGps d s.frames_processed).map
        (fun e => e.2.gesture_percentage))
      = d.keys.map
          (fun g => (d.val g : ℚ) / (s.frames_processed : ℚ) * 100) := by
    simp [mkGps, List.map_map, Function.comp]
  rw [hmm, sum_map_div d.keys d.val (s.frames_processed : ℚ)]
  have hsv : (d.keys.map d.val).sum = s.detections.length := by
    simpa [sumVals, emptyCounts] using hsum
  rw [hsv]
  have hNq : (0 : ℚ) < (s.frames_processed : ℚ) := by exact_mod_cast hN
  have hLq : ((s.detections.length : ℚ)) ≤ (s.frames_processed : ℚ) := by
    exact_mod_cast hlen
  have h1 : (s.detections.length : ℚ) / (s.frames_processed : ℚ) ≤ 1 :=
    (div_le_one hNq).mpr hLq
  calc (s.detections.length : ℚ) / (s.frames_processed : ℚ) * 100
      ≤ 1 * 100 := mul_le_mul_of_nonneg_right h1 (by norm_num)
    _ = 100 := one_mul 100

/-- Witness for C7 at a concrete two-frame session. -/
theorem gesture_percentage_sum_le_100_witness :
    ((((score_session two_open_palm_session 3).getD
          (buildReport two_open_palm_session 3 [])).gesture_percentages.map
        (fun e => e.2.gesture_percentage)).sum) ≤ 100 :=
  gesture_percentage_sum_le_100 two_open_palm_session 3
    ((score_session two_open_palm_session 3).getD
      (buildReport two_open_palm_session 3 [])) (by decide) (by decide) rfl

/-- C10: for every stored session that satisfies the append invariant
and whose detections contain a null entry, `stop_session` hits the
`TypeError` while tallying, answers with a hard 500 status, and leaves
the store — and hence the session — untouched. -/
theorem stop_session_null_detection (store : Store) (sid : String)
    (t : ℚ) (s : Session) (hlook : dictLookup store sid = some s)
    (hinv : s.frames_processed = s.detections.length)
    (hnull : none ∈ s.detections) :
    (stop_session store sid t).1.status = 500
      ∧ (stop_session store sid t).2 = store
      ∧ dictLookup (stop_session store sid t).2 sid = some s := by
  have hpos : 0 < s.frames_processed := by
    rw [hinv]
    exact List.length_pos.mpr (List.ne_nil_of_mem hnull)
  have hsc : score_session s t = none := by
    rw [score_session, if_pos hpos,
      tally_of_mem_none s.detections emptyCounts hnull]
  have hstop : stop_session store sid t
      = ({ status := 500,
           error := some "TypeError while tallying a null detection",
           duration := 0, frames_processed := 0,
           gesture_percentages := [], allowed_gestures := [],
           disallowed_gestures := [], feedback := [],
           overall_score := 0 }, store) := by
    simp only [stop_session, hlook, hsc]
  rw [hstop]
  exact ⟨rfl, rfl, hlook⟩

/-- Witness for C10 at a concrete store holding a session with a null
detection. -/
theorem stop_session_null_detection_witness :
    (stop_session [("1", null_detection_session)] "1" 4).1.status = 500
      ∧ (stop_session [("1", null_detection_session)] "1" 4).2
          = [("1", null_detection_session)]
      ∧ dictLookup (stop_session [("1", null_detection_session)] "1" 4).2 "1"
          = some null_detection_session :=
  stop_session_null_detection [("1", null_detection_session)] "1" 4
    null_detection_session (by decide) (by decide) (by decide)
